import Mathlib

/-!
Shallow embedding of the memory subsystem of the `tage` desktop chat client.

The definitions below are translated from the TypeScript sources:
* `src/services/storage.ts` (the memory store: `Memory`, `MemorySettings`,
  `migrateMemory`, `getMemories`, `addMemory`, `updateMemory`,
  `recordMemoryAccess`, `recordMemoriesAccess`, `calculateImportance`,
  `previewCleanup`),
* `src/services/memoryManager.ts` (`calculateCurrentImportance`,
  `pruneMemories`, `touchMemory`),
* `src/services/contextInjection.ts` (`retrieveRelevantMemories`,
  `simpleKeywordSearch`).

Modelling conventions:
* JavaScript numbers are modelled as `ℚ` where the code only ever adds,
  multiplies and compares (importance scores, similarity scores), and as `ℝ`
  where the code uses `Math.exp` / `Math.log` / `Math.pow`.
* Timestamps (`Date.now()` milliseconds) are `ℕ` and the current time is an
  explicit `now` parameter of every function that reads the clock.
* The persistence layer is explicit state passing: a function that reads the
  stored memory list takes it as an argument, a function that writes it
  returns the new list.
* The external embedding provider and the cosine-similarity routine are
  injected as parameters (`Option` result for the fallible embedding call),
  mirroring the spec's component boundary.
* JavaScript `x ?? d` on a possibly-absent field is `Option.getD`; `x || d`
  on a numeric field also replaces `0` (falsy) by the default, which is
  modelled explicitly by `jsOrNat`.
-/

/-- `'auto' | 'manual'` memory source tag. -/
inductive Source where
  | auto : Source
  | manual : Source
deriving DecidableEq, Repr

/-- `DecayRate = 'fast' | 'normal' | 'slow'`. -/
inductive DecayRate where
  | fast : DecayRate
  | normal : DecayRate
  | slow : DecayRate
deriving DecidableEq, Repr

/-- `CleanupFrequency = 'after_chat' | 'daily' | 'manual'`. -/
inductive CleanupFrequency where
  | after_chat : CleanupFrequency
  | daily : CleanupFrequency
  | manual : CleanupFrequency
deriving DecidableEq, Repr

/-- The `Memory` interface of `storage.ts`: a stored fact with retention
metadata.  `embedding` is the optional vector (`number[]` in the source). -/
structure Memory where
  id : String
  content : String
  source : Source
  createdAt : ℕ
  updatedAt : ℕ
  embedding : Option (List ℚ)
  importance : ℚ
  accessCount : ℕ
  lastAccessedAt : ℕ
  pinned : Bool
deriving DecidableEq, Repr

/-- The `MemorySettings` interface of `storage.ts`. -/
structure MemorySettings where
  enabled : Bool
  autoRetrieve : Bool
  queryRewriting : Bool
  maxRetrieveCount : ℕ
  similarityThreshold : ℚ
  autoSummarize : Bool
  toolModel : String
  embeddingModel : String
  forgettingEnabled : Bool
  maxMemoryCount : ℕ
  importanceThreshold : ℚ
  decayRate : DecayRate
  cleanupFrequency : CleanupFrequency
deriving DecidableEq, Repr

/-- A persisted memory record as it may appear on disk before migration:
every retention field may be absent (`Partial<Memory>` in `migrateMemory`'s
signature, with `id` and `content` required). -/
structure StoredMemory where
  id : String
  content : String
  source : Option Source
  createdAt : Option ℕ
  updatedAt : Option ℕ
  embedding : Option (List ℚ)
  importance : Option ℚ
  accessCount : Option ℕ
  lastAccessedAt : Option ℕ
  pinned : Option Bool
deriving DecidableEq, Repr

/-- JavaScript `x || d` on an optional numeric field: both `undefined` and the
falsy value `0` fall back to the default. -/
def jsOrNat (x : Option ℕ) (d : ℕ) : ℕ :=
  match x with
  | none => d
  | some v => if v = 0 then d else v

/-- `migrateMemory` from `storage.ts`: fill in defaults for records persisted
before the retention fields existed.  `now` is `Date.now()` at load time. -/
def migrateMemory (now : ℕ) (memory : StoredMemory) : Memory :=
  { id := memory.id
    content := memory.content
    source := memory.source.getD Source.manual
    createdAt := jsOrNat memory.createdAt now
    updatedAt := jsOrNat memory.updatedAt now
    embedding := memory.embedding
    importance := memory.importance.getD
      (if memory.source = some Source.manual then 60 else 40)
    accessCount := memory.accessCount.getD 0
    lastAccessedAt := memory.lastAccessedAt.getD (jsOrNat memory.createdAt now)
    pinned := memory.pinned.getD false }

/-- `getMemories` from `storage.ts`: the stored collection (or `null`) is read
from the key-value store and every record is migrated. -/
def getMemories (now : ℕ) (stored : Option (List StoredMemory)) : List Memory :=
  match stored with
  | some l => l.map (migrateMemory now)
  | none => []

/-- `updateMemory(id, content)` from `storage.ts`: the first memory whose id
matches is replaced by a copy with the new content and a bumped `updatedAt`;
all other fields (including `embedding`) are spread from the old record. -/
def updateMemory (now : ℕ) (id : String) (content : String) :
    List Memory → List Memory
  | [] => []
  | m :: rest =>
    if m.id = id then
      { m with content := content, updatedAt := now } :: rest
    else
      m :: updateMemory now id content rest

/-- `recordMemoriesAccess(ids)` from `storage.ts`: every memory whose id is in
`ids` gets `accessCount + 1` and `lastAccessedAt`/`updatedAt` set to `now`;
an empty id list returns without touching the store. -/
def recordMemoriesAccess (now : ℕ) (ids : List String)
    (memories : List Memory) : List Memory :=
  if ids.isEmpty then memories
  else
    memories.map fun m =>
      if m.id ∈ ids then
        { m with
          accessCount := m.accessCount + 1
          lastAccessedAt := now
          updatedAt := now }
      else m

/-- `touchMemory(memoryId)` from `memoryManager.ts`: the first memory whose id
matches gets `accessCount + 1`, `lastAccessedAt := now` and its importance
raised by `importance + (100 - importance) * 0.5`, capped at 100.  (Its doc
comment says it is to be called when a memory is retrieved and used, but no
code path in the repository invokes it.) -/
def touchMemory (now : ℕ) (memoryId : String) : List Memory → List Memory
  | [] => []
  | m :: rest =>
    if m.id = memoryId then
      { m with
        accessCount := m.accessCount + 1
        lastAccessedAt := now
        importance := min 100 (m.importance + (100 - m.importance) * (1 / 2)) } :: rest
    else
      m :: touchMemory now memoryId rest

/-- The `DECAY_CONSTANTS` table of `memoryManager.ts`: `λ = ln 2 / halfLife`
with half-lives of 3, 7 and 30 days. -/
noncomputable def decayConstant : DecayRate → ℝ
  | DecayRate.fast => Real.log 2 / 3
  | DecayRate.normal => Real.log 2 / 7
  | DecayRate.slow => Real.log 2 / 30

/-- `calculateCurrentImportance(memory, rate)` from `memoryManager.ts`:
pinned memories report 100; otherwise the stored importance decays
exponentially with the days elapsed since `lastAccessedAt`, clamped to
`[0, 100]`. -/
noncomputable def calculateCurrentImportance (now : ℕ) (memory : Memory)
    (rate : DecayRate) : ℝ :=
  if memory.pinned then 100
  else
    let timeDiffDays : ℝ :=
      ((now : ℝ) - (memory.lastAccessedAt : ℝ)) / (1000 * 60 * 60 * 24)
    let lambda := decayConstant rate
    let decayedScore := (memory.importance : ℝ) * Real.exp (-lambda * timeDiffDays)
    max 0 (min 100 decayedScore)

/-- The `DECAY_FACTORS` table of `storage.ts`: flat daily multiplicative
factors. -/
noncomputable def decayFactorTable : DecayRate → ℝ
  | DecayRate.fast => 0.95
  | DecayRate.normal => 0.98
  | DecayRate.slow => 0.995

/-- `calculateImportance(memory, decayRate)` from `storage.ts`: pinned
memories report 100; otherwise a source-based base score decays by
`factor ^ days`, a `log(accessCount + 1) * 10` bonus is added, the sum is
clamped to `[0, 100]` and rounded to one decimal (JavaScript `Math.round`
rounds half toward positive infinity). -/
noncomputable def calculateImportance (now : ℕ) (memory : Memory)
    (decayRate : DecayRate) : ℝ :=
  if memory.pinned then 100
  else
    let daysSinceLastAccess : ℝ :=
      ((now : ℝ) - (memory.lastAccessedAt : ℝ)) / (1000 * 60 * 60 * 24)
    let decayFactor := decayFactorTable decayRate
    let baseScore : ℝ := if memory.source = Source.manual then 60 else 40
    let decayedScore := baseScore * decayFactor ^ daysSinceLastAccess
    let accessBonus := Real.log ((memory.accessCount : ℝ) + 1) * 10
    let finalScore := min 100 (max 0 (decayedScore + accessBonus))
    (⌊finalScore * 10 + 1 / 2⌋ : ℝ) / 10

/-- `pruneMemories()` from `memoryManager.ts`, returning the surviving
collection together with `deletedCount`.  Phase 1 keeps every memory whose
stored `importance` field is at or above the threshold, and every pinned one.
Phase 2, if the survivors still exceed `maxMemoryCount`, keeps all pinned
memories plus the highest-importance unpinned ones that fit in the remaining
slots (stable descending sort on the stored `importance` field). -/
def pruneMemories (settings : MemorySettings) (memories : List Memory) :
    List Memory × ℕ :=
  if !(settings.enabled && settings.forgettingEnabled) then (memories, 0)
  else
    let initialCount := memories.length
    let filtered := memories.filter fun m =>
      decide (settings.importanceThreshold ≤ m.importance) || m.pinned
    let final :=
      if settings.maxMemoryCount < filtered.length then
        let pinned := filtered.filter fun m => m.pinned
        let unpinned := filtered.filter fun m => !m.pinned
        let sorted := unpinned.mergeSort fun a b => decide (b.importance ≤ a.importance)
        let remainingSlots := settings.maxMemoryCount - pinned.length
        let keptUnpinned := sorted.take remainingSlots
        pinned ++ keptUnpinned
      else filtered
    (final, initialCount - final.length)

/-- The accumulator loop of `previewCleanup` from `storage.ts`: walk the
unpinned memories (already sorted by descending current importance), sending
each to `toDelete` when its current importance is below the threshold or the
kept list has already reached `maxMemoryCount`, and appending it to
`willKeep` otherwise.  The first component of each pair is the memory, the
second its `currentImportance`. -/
noncomputable def previewCleanupLoop (threshold : ℚ) (maxCount : ℕ)
    (toDelete willKeep : List (Memory × ℝ)) :
    List (Memory × ℝ) → List (Memory × ℝ) × List (Memory × ℝ)
  | [] => (toDelete, willKeep)
  | m :: rest =>
    let belowThreshold := m.2 < (threshold : ℝ)
    let overLimit := maxCount ≤ willKeep.length
    if belowThreshold ∨ overLimit then
      previewCleanupLoop threshold maxCount (toDelete ++ [m]) willKeep rest
    else
      previewCleanupLoop threshold maxCount toDelete (willKeep ++ [m]) rest

/-- `previewCleanup()` from `storage.ts`, returning `(toDelete, willKeep)`
(the `reason` tag of the source's return value, a pure description of which
branch fired, is not modelled).  Every memory is paired with its
`currentImportance` (computed by `calculateImportance`), pinned memories are
kept unconditionally, and the unpinned ones are scanned in order of
descending current importance (stable sort). -/
noncomputable def previewCleanup (now : ℕ) (settings : MemorySettings)
    (memories : List Memory) : List (Memory × ℝ) × List (Memory × ℝ) :=
  let withImportance := memories.map fun m =>
    (m, calculateImportance now m settings.decayRate)
  let pinnedMemories := withImportance.filter fun m => m.1.pinned
  let unpinnedMemories := withImportance.filter fun m => !m.1.pinned
  let sorted := unpinnedMemories.mergeSort fun a b => decide (b.2 ≤ a.2)
  previewCleanupLoop settings.importanceThreshold settings.maxMemoryCount
    [] pinnedMemories sorted

/-- The `RetrievedMemory` result record of `contextInjection.ts`. -/
structure RetrievedMemory where
  id : String
  content : String
  similarity : ℚ
  source : Source
deriving DecidableEq, Repr

/-- `simpleKeywordSearch(query, memories, maxCount)` from
`contextInjection.ts`: tokenize the lower-cased query on whitespace, drop
words of length ≤ 1, score each memory by the number of query words occurring
in its lower-cased content plus 2 if the whole query occurs verbatim, keep
the positively-scored ones sorted by descending score, and return the top
`maxCount` with similarity `score / (queryWords.length + 2)`. -/
def simpleKeywordSearch (query : String) (memories : List Memory)
    (maxCount : ℕ) : List RetrievedMemory :=
  let queryLower := query.toLower
  let queryWords := (queryLower.split Char.isWhitespace).filter fun w => 1 < w.length
  if queryWords.isEmpty then []
  else
    let results := memories.filterMap fun memory =>
      let contentLower := memory.content.toLower
      let wordScore := (queryWords.filter fun w => contentLower.containsSubstr w).length
      let score := wordScore + (if contentLower.containsSubstr queryLower then 2 else 0)
      if 0 < score then some (memory, score) else none
    let sorted := results.mergeSort fun a b => decide (b.2 ≤ a.2)
    (sorted.take maxCount).map fun r =>
      { id := r.1.id
        content := r.1.content
        similarity := (r.2 : ℚ) / ((queryWords.length : ℚ) + 2)
        source := r.1.source }

/-- The pre-fallback part of `retrieveRelevantMemories` from
`contextInjection.ts`: keyword search when no memory carries a (non-empty)
embedding or when embedding the query failed (`queryEmbedding = none`),
otherwise cosine ranking of the embedded memories against the query vector,
keeping those at or above the threshold, sorted by descending similarity,
truncated to `maxCount`.  The cosine routine `cos` and the query-embedding
result are injected parameters (external collaborators). -/
def retrieveCore (cos : List ℚ → List ℚ → ℚ) (query : String) (maxCount : ℕ)
    (threshold : ℚ) (queryEmbedding : Option (List ℚ))
    (memories : List Memory) : List RetrievedMemory :=
  let memoriesWithEmbedding := memories.filter fun m =>
    match m.embedding with
    | some e => !e.isEmpty
    | none => false
  if memoriesWithEmbedding.isEmpty then
    simpleKeywordSearch query memories maxCount
  else
    match queryEmbedding with
    | none => simpleKeywordSearch query memories maxCount
    | some qe =>
      let results := memoriesWithEmbedding.filterMap fun memory =>
        let similarity := cos qe (memory.embedding.getD [])
        if threshold ≤ similarity then
          some ({ id := memory.id
                  content := memory.content
                  similarity := similarity
                  source := memory.source } : RetrievedMemory)
        else none
      let sorted := results.mergeSort fun a b => decide (b.similarity ≤ a.similarity)
      sorted.take maxCount

/-- `retrieveRelevantMemories(query, maxCount, threshold)` from
`contextInjection.ts`: an empty store yields no results; otherwise the
semantic/keyword pipeline of `retrieveCore` runs, and if it produced nothing
while the store is non-empty, up to `min maxCount 3` of the most recently
created memories are returned instead, each with neutral similarity `0.5`. -/
def retrieveRelevantMemories (cos : List ℚ → List ℚ → ℚ) (query : String)
    (maxCount : ℕ) (threshold : ℚ) (queryEmbedding : Option (List ℚ))
    (memories : List Memory) : List RetrievedMemory :=
  if memories.isEmpty then []
  else
    let results := retrieveCore cos query maxCount threshold queryEmbedding memories
    if results.isEmpty && !memories.isEmpty then
      let recentMemories :=
        (memories.mergeSort fun a b => decide (b.createdAt ≤ a.createdAt)).take
          (min maxCount 3)
      recentMemories.map fun m =>
        { id := m.id
          content := m.content
          similarity := 1 / 2
          source := m.source }
    else results

/-! ## Theorems -/

/-- The half-life, in days, behind each entry of the `DECAY_CONSTANTS` table
(`fast: Math.log(2)/3`, `normal: Math.log(2)/7`, `slow: Math.log(2)/30`). -/
noncomputable def halfLifeDays : DecayRate → ℝ
  | DecayRate.fast => 3
  | DecayRate.normal => 7
  | DecayRate.slow => 30

/-- C4: for every unpinned memory, the current importance computed by
`calculateCurrentImportance` equals
`storedImportance * exp(-λ * Δt_days)` with `λ = ln 2 / halfLifeDays`,
where `Δt_days` is the elapsed time since `lastAccessedAt` converted from
milliseconds to days, the result clamped to `[0, 100]`; the half-life is
7 days for `normal`, 3 for `fast` and 30 for `slow`. -/
theorem currentImportance_halflife_formula (now : ℕ) (m : Memory)
    (rate : DecayRate) (h : m.pinned = false) :
    calculateCurrentImportance now m rate =
      max 0 (min 100 ((m.importance : ℝ) *
        Real.exp (-(Real.log 2 / halfLifeDays rate) *
          (((now : ℝ) - (m.lastAccessedAt : ℝ)) / (1000 * 60 * 60 * 24))))) ∧
    halfLifeDays DecayRate.normal = 7 ∧
    halfLifeDays DecayRate.fast = 3 ∧
    halfLifeDays DecayRate.slow = 30 := by
  refine ⟨?_, rfl, rfl, rfl⟩
  unfold calculateCurrentImportance
  rw [if_neg (by simp [h])]
  cases rate <;> simp [decayConstant, halfLifeDays]

/-- Concrete unpinned memory used to instantiate
`currentImportance_halflife_formula`. -/
def c4Memory : Memory :=
  { id := "m4"
    content := "User prefers dark mode"
    source := Source.manual
    createdAt := 86400000
    updatedAt := 86400000
    embedding := none
    importance := 60
    accessCount := 0
    lastAccessedAt := 86400000
    pinned := false }

/-- Witness for C4 at a concrete unpinned memory and time. -/
theorem currentImportance_halflife_formula_witness :
    c4Memory.pinned = false ∧
    (calculateCurrentImportance 172800000 c4Memory DecayRate.normal =
      max 0 (min 100 ((c4Memory.importance : ℝ) *
        Real.exp (-(Real.log 2 / halfLifeDays DecayRate.normal) *
          (((172800000 : ℕ) - (c4Memory.lastAccessedAt : ℝ)) / (1000 * 60 * 60 * 24))))) ∧
     halfLifeDays DecayRate.normal = 7 ∧
     halfLifeDays DecayRate.fast = 3 ∧
     halfLifeDays DecayRate.slow = 30) :=
  ⟨rfl, currentImportance_halflife_formula 172800000 c4Memory DecayRate.normal rfl⟩

/-- C5: a pinned memory's current importance is exactly 100 under both
importance models (`calculateCurrentImportance` of `memoryManager.ts` and
`calculateImportance` of `storage.ts`), regardless of time, stored
importance, access count or decay rate. -/
theorem pinned_importance_is_100 (now : ℕ) (m : Memory) (rate : DecayRate)
    (h : m.pinned = true) :
    calculateCurrentImportance now m rate = 100 ∧
    calculateImportance now m rate = 100 := by
  constructor <;> simp [calculateCurrentImportance, calculateImportance, h]

/-- Concrete pinned memory: old, low stored importance, never accessed. -/
def c5Memory : Memory :=
  { id := "m5"
    content := "pinned fact"
    source := Source.auto
    createdAt := 0
    updatedAt := 0
    embedding := none
    importance := 3
    accessCount := 0
    lastAccessedAt := 0
    pinned := true }

/-- Witness for C5 at a concrete pinned memory far in the past. -/
theorem pinned_importance_is_100_witness :
    c5Memory.pinned = true ∧
    (calculateCurrentImportance 8640000000 c5Memory DecayRate.fast = 100 ∧
     calculateImportance 8640000000 c5Memory DecayRate.fast = 100) :=
  ⟨rfl, pinned_importance_is_100 8640000000 c5Memory DecayRate.fast rfl⟩

/-- The memory the retrieval path surfaces in the C1 scenario: unpinned,
auto-extracted, stored importance 40. -/
def c1Memory : Memory :=
  { id := "m1"
    content := "User likes green tea"
    source := Source.auto
    createdAt := 1000
    updatedAt := 1000
    embedding := none
    importance := 40
    accessCount := 0
    lastAccessedAt := 1000
    pinned := false }

/-- C1: the access recording the retrieval path performs before returning
(`recordMemoriesAccess`) increments `accessCount` and resets
`lastAccessedAt`, but leaves the stored importance unchanged at 40 instead
of raising it to `40 + (100 - 40) * 0.5 = 70`; the reinforcement formula
lives only in `touchMemory`, which would produce 70 here but is invoked by
no code path. -/
theorem recordAccess_does_not_reinforce_importance :
    (recordMemoriesAccess 2000 ["m1"] [c1Memory]).map Memory.importance = [40] ∧
    (recordMemoriesAccess 2000 ["m1"] [c1Memory]).map Memory.accessCount = [1] ∧
    (recordMemoriesAccess 2000 ["m1"] [c1Memory]).map Memory.lastAccessedAt = [2000] ∧
    c1Memory.importance + (100 - c1Memory.importance) * (1 / 2) = 70 ∧
    (touchMemory 2000 "m1" [c1Memory]).map Memory.importance = [70] ∧
    (40 : ℚ) ≠ 70 := by
  refine ⟨by decide, by decide, by decide, by norm_num [c1Memory], ?_, by norm_num⟩
  simp only [touchMemory, c1Memory]
  norm_num

/-- The memory of the C2 scenario: it carries an embedding when
`updateMemory` edits its content. -/
def c2Memory : Memory :=
  { id := "m2"
    content := "old content"
    source := Source.manual
    createdAt := 1000
    updatedAt := 1000
    embedding := some [1, 0, 2]
    importance := 60
    accessCount := 0
    lastAccessedAt := 1000
    pinned := false }

/-- C2: `updateMemory(id, newContent)` replaces the content and bumps
`updatedAt` but spreads every other field from the old record, so the stale
embedding survives the edit instead of being invalidated. -/
theorem updateMemory_keeps_stale_embedding :
    c2Memory.embedding = some [1, 0, 2] ∧
    (updateMemory 5000 "m2" "new content" [c2Memory]).map Memory.content
      = ["new content"] ∧
    (updateMemory 5000 "m2" "new content" [c2Memory]).map Memory.updatedAt
      = [5000] ∧
    (updateMemory 5000 "m2" "new content" [c2Memory]).map Memory.embedding
      = [some [1, 0, 2]] ∧
    some ([1, 0, 2] : List ℚ) ≠ none := by
  refine ⟨?_, ?_, ?_, ?_, ?_⟩ <;> decide

/-- The memory of the C8 counterexample, last updated at time 5. -/
def c8Memory : Memory :=
  { id := "m8"
    content := "stable content"
    source := Source.manual
    createdAt := 5
    updatedAt := 5
    embedding := none
    importance := 60
    accessCount := 0
    lastAccessedAt := 5
    pinned := false }

/-- C8 counterexample: `recordMemoriesAccess` leaves `content`, `importance`
and `pinned` untouched yet moves `updatedAt` from 5 to 10, so access
recording that mutates none of the three fields does change `updatedAt`. -/
theorem recordAccess_changes_updatedAt_counterexample :
    (recordMemoriesAccess 10 ["m8"] [c8Memory]).map Memory.content
      = [c8Memory.content] ∧
    (recordMemoriesAccess 10 ["m8"] [c8Memory]).map Memory.importance
      = [c8Memory.importance] ∧
    (recordMemoriesAccess 10 ["m8"] [c8Memory]).map Memory.pinned
      = [c8Memory.pinned] ∧
    (recordMemoriesAccess 10 ["m8"] [c8Memory]).map Memory.updatedAt = [10] ∧
    c8Memory.updatedAt = 5 ∧
    (10 : ℕ) ≠ 5 := by
  refine ⟨?_, ?_, ?_, ?_, ?_, ?_⟩ <;> decide

/-- C8 (amended): `recordMemoriesAccess` never changes a memory's `content`,
`importance`, `pinned`, `id`, `source`, `createdAt` or `embedding`; for
memories whose id is in the recorded list it sets `accessCount + 1` and
resets `lastAccessedAt` and also `updatedAt` to `now`, and it leaves every
other memory entirely unchanged. -/
theorem recordAccess_updatedAt_frame (now : ℕ) (ids : List String)
    (memories : List Memory) (i : ℕ) (m : Memory)
    (h : memories[i]? = some m) :
    ∃ m2, (recordMemoriesAccess now ids memories)[i]? = some m2 ∧
      m2.content = m.content ∧
      m2.importance = m.importance ∧
      m2.pinned = m.pinned ∧
      m2.id = m.id ∧
      m2.source = m.source ∧
      m2.createdAt = m.createdAt ∧
      m2.embedding = m.embedding ∧
      m2.accessCount = (if m.id ∈ ids then m.accessCount + 1 else m.accessCount) ∧
      m2.lastAccessedAt = (if m.id ∈ ids then now else m.lastAccessedAt) ∧
      m2.updatedAt = (if m.id ∈ ids then now else m.updatedAt) := by
  unfold recordMemoriesAccess
  by_cases hids : ids.isEmpty
  · have hnil : ids = [] := List.isEmpty_iff.mp hids
    refine ⟨m, ?_⟩
    simp [hids, h, hnil]
  · simp only [hids, if_false, Bool.false_eq_true]
    by_cases hmem : m.id ∈ ids
    · refine ⟨{ m with accessCount := m.accessCount + 1,
                       lastAccessedAt := now, updatedAt := now }, ?_⟩
      simp [List.getElem?_map, h, hmem]
    · refine ⟨m, ?_⟩
      simp [List.getElem?_map, h, hmem]

/-- Witness for the amended C8 at a concrete store and id list. -/
theorem recordAccess_updatedAt_frame_witness :
    ([c8Memory][0]? = some c8Memory) ∧
    (∃ m2, (recordMemoriesAccess 10 ["m8"] [c8Memory])[0]? = some m2 ∧
      m2.content = c8Memory.content ∧
      m2.importance = c8Memory.importance ∧
      m2.pinned = c8Memory.pinned ∧
      m2.id = c8Memory.id ∧
      m2.source = c8Memory.source ∧
      m2.createdAt = c8Memory.createdAt ∧
      m2.embedding = c8Memory.embedding ∧
      m2.accessCount =
        (if c8Memory.id ∈ ["m8"] then c8Memory.accessCount + 1
         else c8Memory.accessCount) ∧
      m2.lastAccessedAt =
        (if c8Memory.id ∈ ["m8"] then 10 else c8Memory.lastAccessedAt) ∧
      m2.updatedAt = (if c8Memory.id ∈ ["m8"] then 10 else c8Memory.updatedAt)) :=
  ⟨by decide, recordAccess_updatedAt_frame 10 ["m8"] [c8Memory] 0 c8Memory (by decide)⟩

/-- C10 (amended): a persisted record missing all retention fields is
returned by the list operation with `accessCount = 0`, `pinned = false`,
`importance = 60` when the persisted record's `source` is `'manual'` and 40
otherwise, and `lastAccessedAt` equal to its persisted `createdAt` when that
is present and nonzero, and to the load time when `createdAt` is absent or 0
(the JavaScript falsy test `createdAt || now`). -/
theorem getMemories_migration_defaults (now : ℕ) (stored : List StoredMemory)
    (s : StoredMemory)
    (h1 : s.accessCount = none) (h2 : s.pinned = none)
    (h3 : s.lastAccessedAt = none) (h4 : s.importance = none) :
    getMemories now (some stored) = stored.map (migrateMemory now) ∧
    (migrateMemory now s).accessCount = 0 ∧
    (migrateMemory now s).pinned = false ∧
    (migrateMemory now s).importance =
      (if s.source = some Source.manual then 60 else 40) ∧
    (migrateMemory now s).lastAccessedAt =
      (match s.createdAt with
       | some c => if c = 0 then now else c
       | none => now) := by
  refine ⟨rfl, ?_, ?_, ?_, ?_⟩
  · simp [migrateMemory, h1]
  · simp [migrateMemory, h2]
  · simp [migrateMemory, h4]
  · cases hc : s.createdAt <;> simp [migrateMemory, h3, jsOrNat, hc]

/-- A legacy record with no retention fields and a nonzero `createdAt`. -/
def c10Stored : StoredMemory :=
  { id := "m10"
    content := "legacy fact"
    source := some Source.auto
    createdAt := some 777
    updatedAt := none
    embedding := none
    importance := none
    accessCount := none
    lastAccessedAt := none
    pinned := none }

/-- Witness for the amended C10 at a concrete legacy record. -/
theorem getMemories_migration_defaults_witness :
    (c10Stored.accessCount = none ∧ c10Stored.pinned = none ∧
     c10Stored.lastAccessedAt = none ∧ c10Stored.importance = none) ∧
    (getMemories 1000 (some [c10Stored]) = [c10Stored].map (migrateMemory 1000) ∧
     (migrateMemory 1000 c10Stored).accessCount = 0 ∧
     (migrateMemory 1000 c10Stored).pinned = false ∧
     (migrateMemory 1000 c10Stored).importance =
       (if c10Stored.source = some Source.manual then 60 else 40) ∧
     (migrateMemory 1000 c10Stored).lastAccessedAt =
       (match c10Stored.createdAt with
        | some c => if c = 0 then 1000 else c
        | none => 1000)) :=
  ⟨⟨rfl, rfl, rfl, rfl⟩,
   getMemories_migration_defaults 1000 [c10Stored] c10Stored rfl rfl rfl rfl⟩

/-- A legacy record whose persisted `createdAt` is the (falsy) timestamp 0
and whose retention fields are absent. -/
def c10ZeroStored : StoredMemory :=
  { id := "m10z"
    content := "epoch fact"
    source := some Source.manual
    createdAt := some 0
    updatedAt := none
    embedding := none
    importance := none
    accessCount := none
    lastAccessedAt := none
    pinned := none }

/-- C10 counterexample: for a record missing the retention fields whose
persisted `createdAt` is present but 0, migration sets `lastAccessedAt` to
the load time (here 1000) rather than to the record's `createdAt`, because
`createdAt || now` treats 0 as absent. -/
theorem migrate_zero_createdAt_counterexample :
    c10ZeroStored.createdAt = some 0 ∧
    c10ZeroStored.lastAccessedAt = none ∧
    (migrateMemory 1000 c10ZeroStored).lastAccessedAt = 1000 ∧
    (1000 : ℕ) ≠ 0 := by
  refine ⟨rfl, rfl, ?_, by decide⟩
  simp [migrateMemory, c10ZeroStored, jsOrNat]

/-- Helper: the `willKeep` accumulator of `previewCleanupLoop` only ever
grows, so the final kept list extends whatever it started with. -/
theorem previewCleanupLoop_keep_extends (threshold : ℚ) (maxCount : ℕ) :
    ∀ (rest toDelete willKeep : List (Memory × ℝ)), ∃ extra,
      (previewCleanupLoop threshold maxCount toDelete willKeep rest).2
        = willKeep ++ extra := by
  intro rest
  induction rest with
  | nil =>
    intro toDelete willKeep
    exact ⟨[], by simp [previewCleanupLoop]⟩
  | cons head tail ih =>
    intro toDelete willKeep
    unfold previewCleanupLoop
    by_cases hc : head.2 < (threshold : ℝ) ∨ maxCount ≤ willKeep.length
    · simpa [hc] using ih (toDelete ++ [head]) willKeep
    · obtain ⟨extra, hex⟩ := ih toDelete (willKeep ++ [head])
      exact ⟨[head] ++ extra, by simp [hc, hex]⟩

/-- C6: a pinned memory is never deleted: it survives `pruneMemories`
for every settings record and store state (whatever its stored importance
and however far the store exceeds the cap), and it is always placed in the
`willKeep` list of `previewCleanup` (the plan executed by
`performSmartCleanup`). -/
theorem prune_never_deletes_pinned (now : ℕ) (settings : MemorySettings)
    (memories : List Memory) (m : Memory) (hm : m ∈ memories)
    (hp : m.pinned = true) :
    m ∈ (pruneMemories settings memories).1 ∧
    (m, calculateImportance now m settings.decayRate) ∈
      (previewCleanup now settings memories).2 := by
  constructor
  · unfold pruneMemories
    by_cases hen : settings.enabled && settings.forgettingEnabled
    · have hf : m ∈ memories.filter (fun x =>
          decide (settings.importanceThreshold ≤ x.importance) || x.pinned) := by
        rw [List.mem_filter]
        exact ⟨hm, by simp [hp]⟩
      simp only [hen, Bool.not_true, Bool.false_eq_true, if_false]
      split
      · exact List.mem_append_left _ (by rw [List.mem_filter]; exact ⟨hf, hp⟩)
      · exact hf
    · simp only [Bool.not_eq_true] at hen
      simp [hen, hm]
  · have hpair : (m, calculateImportance now m settings.decayRate) ∈
        memories.map (fun x => (x, calculateImportance now x settings.decayRate)) :=
      List.mem_map_of_mem _ hm
    have hpin : (m, calculateImportance now m settings.decayRate) ∈
        (memories.map (fun x =>
          (x, calculateImportance now x settings.decayRate))).filter
            (fun p => p.1.pinned) := by
      rw [List.mem_filter]
      exact ⟨hpair, hp⟩
    unfold previewCleanup
    obtain ⟨extra, hex⟩ := previewCleanupLoop_keep_extends
      settings.importanceThreshold settings.maxMemoryCount
      (((memories.map (fun x =>
          (x, calculateImportance now x settings.decayRate))).filter
            (fun p => !p.1.pinned)).mergeSort fun a b => decide (b.2 ≤ a.2))
      []
      ((memories.map (fun x =>
          (x, calculateImportance now x settings.decayRate))).filter
            (fun p => p.1.pinned))
    rw [hex]
    exact List.mem_append_left _ hpin

/-- A pinned memory whose stored importance is far below any threshold. -/
def c6Pinned : Memory :=
  { id := "m6"
    content := "pinned but stale"
    source := Source.auto
    createdAt := 0
    updatedAt := 0
    embedding := none
    importance := 3
    accessCount := 0
    lastAccessedAt := 0
    pinned := true }

/-- Settings with forgetting on, threshold 50 and a cap of 1. -/
def c6Settings : MemorySettings :=
  { enabled := true
    autoRetrieve := true
    queryRewriting := false
    maxRetrieveCount := 5
    similarityThreshold := 10
    autoSummarize := false
    toolModel := ""
    embeddingModel := ""
    forgettingEnabled := true
    maxMemoryCount := 1
    importanceThreshold := 50
    decayRate := DecayRate.normal
    cleanupFrequency := CleanupFrequency.manual }

/-- Witness for C6: the stale pinned memory survives a sweep whose threshold
it is far below. -/
theorem prune_never_deletes_pinned_witness :
    (c6Pinned ∈ [c6Pinned] ∧ c6Pinned.pinned = true) ∧
    (c6Pinned ∈ (pruneMemories c6Settings [c6Pinned]).1 ∧
     (c6Pinned, calculateImportance 8640000000 c6Pinned c6Settings.decayRate) ∈
       (previewCleanup 8640000000 c6Settings [c6Pinned]).2) :=
  ⟨⟨List.mem_singleton.mpr rfl, rfl⟩,
   prune_never_deletes_pinned 8640000000 c6Settings [c6Pinned] c6Pinned
     (List.mem_singleton.mpr rfl) rfl⟩

/-- An unpinned memory whose stored importance (50) is healthy but which has
not been accessed for 100 days, so its recomputed current importance has
decayed to well under 5. -/
def c3Memory : Memory :=
  { id := "m3"
    content := "stale but well scored"
    source := Source.manual
    createdAt := 0
    updatedAt := 0
    embedding := none
    importance := 50
    accessCount := 0
    lastAccessedAt := 0
    pinned := false }

/-- Settings with forgetting on, threshold 30 and a generous cap. -/
def c3Settings : MemorySettings :=
  { enabled := true
    autoRetrieve := true
    queryRewriting := false
    maxRetrieveCount := 5
    similarityThreshold := 10
    autoSummarize := false
    toolModel := ""
    embeddingModel := ""
    forgettingEnabled := true
    maxMemoryCount := 100
    importanceThreshold := 30
    decayRate := DecayRate.normal
    cleanupFrequency := CleanupFrequency.manual }

/-- C3 counterexample: 100 days after its last access (time 8640000000 ms),
the unpinned memory's current importance recomputed by the decay law is below
the threshold 30, yet `pruneMemories` deletes nothing and keeps it, because
the threshold phase compares the stored `importance` field (50), never the
recomputed value. -/
theorem prune_ignores_recomputed_importance :
    c3Memory.pinned = false ∧
    c3Settings.importanceThreshold = 30 ∧
    c3Settings.decayRate = DecayRate.normal ∧
    calculateCurrentImportance 8640000000 c3Memory DecayRate.normal < 30 ∧
    (pruneMemories c3Settings [c3Memory]).1 = [c3Memory] ∧
    (pruneMemories c3Settings [c3Memory]).2 = 0 := by
  refine ⟨rfl, rfl, rfl, ?_, by decide, by decide⟩
  have heq : calculateCurrentImportance 8640000000 c3Memory DecayRate.normal
      = max 0 (min 100 ((50 : ℝ) * Real.exp (-(Real.log 2 / 7) * 100))) := by
    unfold calculateCurrentImportance decayConstant
    norm_num [c3Memory]
  rw [heq]
  have hexp : Real.exp (-(Real.log 2 / 7) * 100) < 1 / 10 := by
    have hlog := Real.log_two_gt_d9
    have h1 : Real.log 2 / 7 * 100 + 1 ≤ Real.exp (Real.log 2 / 7 * 100) :=
      Real.add_one_le_exp _
    have h2 : (10 : ℝ) < Real.exp (Real.log 2 / 7 * 100) := by nlinarith
    have h3 : Real.exp (-(Real.log 2 / 7) * 100)
        = (Real.exp (Real.log 2 / 7 * 100))⁻¹ := by
      rw [← Real.exp_neg]; ring_nf
    rw [h3, show (1 : ℝ) / 10 = (10 : ℝ)⁻¹ by norm_num]
    exact inv_strictAnti₀ (by norm_num) h2
  have hpos := Real.exp_pos (-(Real.log 2 / 7) * 100)
  apply max_lt (by norm_num)
  exact lt_of_le_of_lt (min_le_right _ _) (by nlinarith)

/-- C3 (amended): when the threshold survivors fit under the capacity cap,
`pruneMemories` keeps exactly the pinned memories and the unpinned ones whose
stored `importance` field is at or above `importanceThreshold` — i.e. the
threshold phase deletes exactly the unpinned memories whose *stored*
importance is below the threshold, with no recomputation of current
importance. -/
theorem prune_threshold_phase_stored_importance (settings : MemorySettings)
    (memories : List Memory)
    (hEnabled : settings.enabled = true)
    (hForget : settings.forgettingEnabled = true)
    (hCap : (memories.filter fun x =>
        decide (settings.importanceThreshold ≤ x.importance) || x.pinned).length
        ≤ settings.maxMemoryCount) :
    (pruneMemories settings memories).1 = memories.filter (fun x =>
        decide (settings.importanceThreshold ≤ x.importance) || x.pinned) ∧
    (∀ m : Memory, m ∈ (pruneMemories settings memories).1 ↔
        m ∈ memories ∧
          (settings.importanceThreshold ≤ m.importance ∨ m.pinned = true)) ∧
    (pruneMemories settings memories).2 =
      memories.length - (pruneMemories settings memories).1.length := by
  have h1 : (pruneMemories settings memories).1 = memories.filter (fun x =>
      decide (settings.importanceThreshold ≤ x.importance) || x.pinned) := by
    unfold pruneMemories
    simp only [hEnabled, hForget, Bool.and_self, Bool.not_true,
      Bool.false_eq_true, if_false]
    rw [if_neg (not_lt.mpr hCap)]
  refine ⟨h1, ?_, ?_⟩
  · intro m
    rw [h1, List.mem_filter]
    constructor
    · rintro ⟨hm, hcond⟩
      refine ⟨hm, ?_⟩
      rcases Bool.or_eq_true_iff.mp hcond with h | h
      · exact Or.inl (of_decide_eq_true h)
      · exact Or.inr h
    · rintro ⟨hm, hcond⟩
      refine ⟨hm, ?_⟩
      rcases hcond with h | h
      · exact Bool.or_eq_true_iff.mpr (Or.inl (decide_eq_true h))
      · exact Bool.or_eq_true_iff.mpr (Or.inr h)
  · unfold pruneMemories
    simp only [hEnabled, hForget, Bool.and_self, Bool.not_true,
      Bool.false_eq_true, if_false]

/-- A deletable memory: unpinned, stored importance 10, below threshold. -/
def c3LowMemory : Memory :=
  { id := "m3low"
    content := "low importance"
    source := Source.auto
    createdAt := 0
    updatedAt := 0
    embedding := none
    importance := 10
    accessCount := 0
    lastAccessedAt := 0
    pinned := false }

/-- Witness for the amended C3: with threshold 30, the stored-importance-10
memory is deleted and the stored-importance-50 one survives. -/
theorem prune_threshold_phase_stored_importance_witness :
    (c3Settings.enabled = true ∧ c3Settings.forgettingEnabled = true ∧
     ([c3LowMemory, c3Memory].filter fun x =>
        decide (c3Settings.importanceThreshold ≤ x.importance) || x.pinned).length
        ≤ c3Settings.maxMemoryCount) ∧
    ((pruneMemories c3Settings [c3LowMemory, c3Memory]).1 =
        [c3LowMemory, c3Memory].filter (fun x =>
          decide (c3Settings.importanceThreshold ≤ x.importance) || x.pinned) ∧
     (∀ m : Memory, m ∈ (pruneMemories c3Settings [c3LowMemory, c3Memory]).1 ↔
        m ∈ [c3LowMemory, c3Memory] ∧
          (c3Settings.importanceThreshold ≤ m.importance ∨ m.pinned = true)) ∧
     (pruneMemories c3Settings [c3LowMemory, c3Memory]).2 =
        [c3LowMemory, c3Memory].length -
          (pruneMemories c3Settings [c3LowMemory, c3Memory]).1.length) :=
  ⟨⟨rfl, rfl, by decide⟩,
   prune_threshold_phase_stored_importance c3Settings [c3LowMemory, c3Memory]
     rfl rfl (by decide)⟩

/-- Helper: a stable descending sort on a key is pairwise-descending, and
every element it drops beyond position `k` has a key no larger than every
element it keeps among the first `k`. -/
theorem mergeSort_key_drop_le_take {α β : Type} [LinearOrder β] (f : α → β)
    (l : List α) (k : ℕ) :
    List.Pairwise (fun a b => f b ≤ f a)
      (l.mergeSort fun a b => decide (f b ≤ f a)) ∧
    ∀ x ∈ (l.mergeSort fun a b => decide (f b ≤ f a)).drop k,
    ∀ y ∈ (l.mergeSort fun a b => decide (f b ≤ f a)).take k,
      f x ≤ f y := by
  have hs := @List.sorted_mergeSort α (fun a b => decide (f b ≤ f a))
    (fun a b c hab hbc => by
      simp only [decide_eq_true_eq] at hab hbc ⊢
      exact le_trans hbc hab)
    (fun a b => by
      rcases le_total (f a) (f b) with h | h
      · exact Bool.or_eq_true_iff.mpr (Or.inr (decide_eq_true h))
      · exact Bool.or_eq_true_iff.mpr (Or.inl (decide_eq_true h)))
    l
  have hp : List.Pairwise (fun a b => f b ≤ f a)
      (l.mergeSort fun a b => decide (f b ≤ f a)) :=
    hs.imp fun h => of_decide_eq_true h
  refine ⟨hp, ?_⟩
  have hsplit := List.take_append_drop k (l.mergeSort fun a b => decide (f b ≤ f a))
  rw [← hsplit, List.pairwise_append] at hp
  intro x hx y hy
  exact hp.2.2 y hy x hx

/-- The threshold-phase survivors of `pruneMemories`: memories whose stored
`importance` is at or above the threshold, plus every pinned memory. -/
def thresholdSurvivors (settings : MemorySettings) (memories : List Memory) :
    List Memory :=
  memories.filter fun x =>
    decide (settings.importanceThreshold ≤ x.importance) || x.pinned

/-- The stable descending sort on the stored `importance` field used by the
capacity phase of `pruneMemories`. -/
def sortByImportanceDesc (l : List Memory) : List Memory :=
  l.mergeSort fun a b => decide (b.importance ≤ a.importance)

/-- C7: when the threshold survivors (pinned plus surviving unpinned — both
count toward the cap) still exceed `maxMemoryCount`, `pruneMemories` keeps
every pinned survivor plus the first `maxMemoryCount - #pinned` entries of
the stable descending importance sort of the unpinned survivors; whenever
the pinned survivors fit under the cap, the result has exactly
`maxMemoryCount` memories, and every unpinned survivor deleted by the
capacity phase has stored importance no larger than every one kept. -/
theorem prune_capacity_cap (settings : MemorySettings) (memories : List Memory)
    (hEnabled : settings.enabled = true)
    (hForget : settings.forgettingEnabled = true)
    (hOver : settings.maxMemoryCount <
      (thresholdSurvivors settings memories).length) :
    (pruneMemories settings memories).1 =
      (thresholdSurvivors settings memories).filter (fun m => m.pinned)
        ++ (sortByImportanceDesc
              ((thresholdSurvivors settings memories).filter
                fun m => !m.pinned)).take
            (settings.maxMemoryCount -
              ((thresholdSurvivors settings memories).filter
                (fun m => m.pinned)).length) ∧
    (pruneMemories settings memories).2 =
      memories.length - (pruneMemories settings memories).1.length ∧
    (((thresholdSurvivors settings memories).filter
        (fun m => m.pinned)).length ≤ settings.maxMemoryCount →
      (pruneMemories settings memories).1.length = settings.maxMemoryCount) ∧
    (∀ x ∈ (sortByImportanceDesc
          ((thresholdSurvivors settings memories).filter
            fun m => !m.pinned)).drop
            (settings.maxMemoryCount -
              ((thresholdSurvivors settings memories).filter
                (fun m => m.pinned)).length),
     ∀ y ∈ (sortByImportanceDesc
          ((thresholdSurvivors settings memories).filter
            fun m => !m.pinned)).take
            (settings.maxMemoryCount -
              ((thresholdSurvivors settings memories).filter
                (fun m => m.pinned)).length),
       x.importance ≤ y.importance) ∧
    (sortByImportanceDesc
        ((thresholdSurvivors settings memories).filter fun m => !m.pinned)).Perm
      ((thresholdSurvivors settings memories).filter fun m => !m.pinned) := by
  have hOver2 : settings.maxMemoryCount <
      (memories.filter fun x =>
        decide (settings.importanceThreshold ≤ x.importance) || x.pinned).length :=
    hOver
  have h1 : (pruneMemories settings memories).1 =
      (thresholdSurvivors settings memories).filter (fun m => m.pinned)
        ++ (sortByImportanceDesc
              ((thresholdSurvivors settings memories).filter
                fun m => !m.pinned)).take
            (settings.maxMemoryCount -
              ((thresholdSurvivors settings memories).filter
                (fun m => m.pinned)).length) := by
    unfold pruneMemories thresholdSurvivors sortByImportanceDesc
    simp only [hEnabled, hForget, Bool.and_self, Bool.not_true,
      Bool.false_eq_true, if_false]
    rw [if_pos hOver2]
  have h2 : (pruneMemories settings memories).2 =
      memories.length - (pruneMemories settings memories).1.length := by
    unfold pruneMemories
    simp only [hEnabled, hForget, Bool.and_self, Bool.not_true,
      Bool.false_eq_true, if_false]
  have hsplit : ((thresholdSurvivors settings memories).filter
        (fun m => m.pinned)).length
      + ((thresholdSurvivors settings memories).filter
        (fun m => !m.pinned)).length
      = (thresholdSurvivors settings memories).length := by
    have hp := List.filter_append_perm (fun m : Memory => m.pinned)
      (thresholdSurvivors settings memories)
    calc ((thresholdSurvivors settings memories).filter
            (fun m => m.pinned)).length
        + ((thresholdSurvivors settings memories).filter
            (fun m => !m.pinned)).length
        = (((thresholdSurvivors settings memories).filter (fun m => m.pinned))
            ++ ((thresholdSurvivors settings memories).filter
              (fun m => !m.pinned))).length := (List.length_append _ _).symm
      _ = (thresholdSurvivors settings memories).length := hp.length_eq
  have hsortlen : (sortByImportanceDesc
      ((thresholdSurvivors settings memories).filter fun m => !m.pinned)).length
      = ((thresholdSurvivors settings memories).filter
          fun m => !m.pinned).length :=
    (List.mergeSort_perm _ _).length_eq
  refine ⟨h1, h2, ?_, ?_, List.mergeSort_perm _ _⟩
  · intro hPin
    rw [h1, List.length_append, List.length_take, hsortlen]
    omega
  · have hkey := mergeSort_key_drop_le_take Memory.importance
      ((thresholdSurvivors settings memories).filter fun m => !m.pinned)
      (settings.maxMemoryCount -
        ((thresholdSurvivors settings memories).filter
          (fun m => m.pinned)).length)
    intro x hx y hy
    exact hkey.2 x hx y hy

/-- Builder for the unpinned memories of the C7 capacity scenario. -/
def c7Mem (name : String) (imp : ℚ) : Memory :=
  { id := name
    content := name
    source := Source.auto
    createdAt := 0
    updatedAt := 0
    embedding := none
    importance := imp
    accessCount := 0
    lastAccessedAt := 0
    pinned := false }

/-- The 8 unpinned memories of the C7 scenario, in scrambled store order. -/
def c7Memories : List Memory :=
  [c7Mem "a30" 30, c7Mem "a80" 80, c7Mem "a10" 10, c7Mem "a60" 60,
   c7Mem "a40" 40, c7Mem "a70" 70, c7Mem "a20" 20, c7Mem "a50" 50]

/-- Settings with a capacity cap of 5 and a threshold below every memory. -/
def c7Settings : MemorySettings :=
  { enabled := true
    autoRetrieve := true
    queryRewriting := false
    maxRetrieveCount := 5
    similarityThreshold := 10
    autoSummarize := false
    toolModel := ""
    embeddingModel := ""
    forgettingEnabled := true
    maxMemoryCount := 5
    importanceThreshold := 10
    decayRate := DecayRate.normal
    cleanupFrequency := CleanupFrequency.manual }

/-- Pinned builder for the mixed C7 scenario. -/
def c7Pin (name : String) (imp : ℚ) : Memory :=
  { c7Mem name imp with pinned := true }

/-- Mixed store: 2 pinned memories (one below the threshold) and 6 unpinned
ones at or above it, in scrambled order. -/
def c7MixedMemories : List Memory :=
  [c7Pin "p5" 5, c7Mem "b60" 60, c7Mem "b20" 20, c7Pin "p90" 90,
   c7Mem "b50" 50, c7Mem "b30" 30, c7Mem "b40" 40, c7Mem "b10" 10]

/-- Witness for C7 at two concrete stores with `maxMemoryCount = 5`: the
claim's scenario of 8 unpinned memories at or above the threshold (exactly
the 3 lowest-importance ones deleted, the 5 highest kept), and a mixed store
of 2 pinned plus 6 unpinned survivors (both pinned kept and counted against
the cap, the top 3 unpinned kept, the 3 lowest deleted). -/
theorem prune_capacity_cap_witness :
    (c7Settings.enabled = true ∧ c7Settings.forgettingEnabled = true ∧
     c7Settings.maxMemoryCount <
       (thresholdSurvivors c7Settings c7Memories).length ∧
     c7Settings.maxMemoryCount <
       (thresholdSurvivors c7Settings c7MixedMemories).length ∧
     ((thresholdSurvivors c7Settings c7Memories).filter
       (fun m => m.pinned)).length ≤ c7Settings.maxMemoryCount ∧
     ((thresholdSurvivors c7Settings c7MixedMemories).filter
       (fun m => m.pinned)).length ≤ c7Settings.maxMemoryCount) ∧
    ((pruneMemories c7Settings c7Memories).1 =
       (thresholdSurvivors c7Settings c7Memories).filter (fun m => m.pinned)
         ++ (sortByImportanceDesc
               ((thresholdSurvivors c7Settings c7Memories).filter
                 fun m => !m.pinned)).take
             (c7Settings.maxMemoryCount -
               ((thresholdSurvivors c7Settings c7Memories).filter
                 (fun m => m.pinned)).length)) ∧
    (pruneMemories c7Settings c7Memories).1.length = c7Settings.maxMemoryCount ∧
    ((pruneMemories c7Settings c7MixedMemories).1 =
       (thresholdSurvivors c7Settings c7MixedMemories).filter (fun m => m.pinned)
         ++ (sortByImportanceDesc
               ((thresholdSurvivors c7Settings c7MixedMemories).filter
                 fun m => !m.pinned)).take
             (c7Settings.maxMemoryCount -
               ((thresholdSurvivors c7Settings c7MixedMemories).filter
                 (fun m => m.pinned)).length)) ∧
    (pruneMemories c7Settings c7MixedMemories).1.length =
      c7Settings.maxMemoryCount ∧
    (pruneMemories c7Settings c7Memories).1 =
      [c7Mem "a80" 80, c7Mem "a70" 70, c7Mem "a60" 60, c7Mem "a50" 50,
       c7Mem "a40" 40] ∧
    (pruneMemories c7Settings c7Memories).2 = 3 ∧
    (pruneMemories c7Settings c7MixedMemories).1 =
      [c7Pin "p5" 5, c7Pin "p90" 90, c7Mem "b60" 60, c7Mem "b50" 50,
       c7Mem "b40" 40] ∧
    (pruneMemories c7Settings c7MixedMemories).2 = 3 :=
  ⟨⟨rfl, rfl, by decide, by decide, by decide, by decide⟩,
   (prune_capacity_cap c7Settings c7Memories rfl rfl (by decide)).1,
   (prune_capacity_cap c7Settings c7Memories rfl rfl (by decide)).2.2.1
     (by decide),
   (prune_capacity_cap c7Settings c7MixedMemories rfl rfl (by decide)).1,
   (prune_capacity_cap c7Settings c7MixedMemories rfl rfl (by decide)).2.2.1
     (by decide),
   by norm_num [pruneMemories, c7Settings, c7Memories, c7Mem,
     List.mergeSort, List.merge],
   by norm_num [pruneMemories, c7Settings, c7Memories, c7Mem,
     List.mergeSort, List.merge],
   by norm_num [pruneMemories, c7Settings, c7MixedMemories, c7Mem, c7Pin,
     List.mergeSort, List.merge],
   by norm_num [pruneMemories, c7Settings, c7MixedMemories, c7Mem, c7Pin,
     List.mergeSort, List.merge]⟩

/-- C9: whenever the semantic/keyword pipeline (`retrieveCore`) produces no
results but the store is non-empty (and `maxRetrieveCount` is at least 1, as
its 1–20 range guarantees), `retrieveRelevantMemories` returns the first
`min maxCount 3` entries of the stable descending sort on `createdAt` — so
between 1 and 3 memories, the most recently created ones, in descending
`createdAt` order — each carrying similarity exactly `0.5`. -/
theorem retrieve_recency_fallback (cos : List ℚ → List ℚ → ℚ) (query : String)
    (maxCount : ℕ) (threshold : ℚ) (queryEmbedding : Option (List ℚ))
    (memories : List Memory)
    (hne : memories ≠ []) (hmax : 1 ≤ maxCount)
    (hcore : retrieveCore cos query maxCount threshold queryEmbedding memories
      = []) :
    retrieveRelevantMemories cos query maxCount threshold queryEmbedding memories
      = ((memories.mergeSort fun a b => decide (b.createdAt ≤ a.createdAt)).take
          (min maxCount 3)).map (fun m =>
            { id := m.id, content := m.content, similarity := 1 / 2,
              source := m.source }) ∧
    1 ≤ (retrieveRelevantMemories cos query maxCount threshold queryEmbedding
          memories).length ∧
    (retrieveRelevantMemories cos query maxCount threshold queryEmbedding
          memories).length ≤ 3 ∧
    (∀ r ∈ retrieveRelevantMemories cos query maxCount threshold queryEmbedding
          memories, r.similarity = 1 / 2) ∧
    List.Pairwise (fun a b : Memory => b.createdAt ≤ a.createdAt)
      ((memories.mergeSort fun a b => decide (b.createdAt ≤ a.createdAt)).take
        (min maxCount 3)) ∧
    (∀ x ∈ (memories.mergeSort fun a b =>
        decide (b.createdAt ≤ a.createdAt)).drop (min maxCount 3),
     ∀ y ∈ (memories.mergeSort fun a b =>
        decide (b.createdAt ≤ a.createdAt)).take (min maxCount 3),
       x.createdAt ≤ y.createdAt) := by
  have hne2 : memories.isEmpty = false := by
    cases memories with
    | nil => exact absurd rfl hne
    | cons a l => rfl
  have h1 : retrieveRelevantMemories cos query maxCount threshold queryEmbedding
      memories
      = ((memories.mergeSort fun a b => decide (b.createdAt ≤ a.createdAt)).take
          (min maxCount 3)).map (fun m =>
            { id := m.id, content := m.content, similarity := 1 / 2,
              source := m.source }) := by
    unfold retrieveRelevantMemories
    simp [hne2, hcore]
  have hlen : (memories.mergeSort fun a b =>
      decide (b.createdAt ≤ a.createdAt)).length = memories.length :=
    (List.mergeSort_perm memories _).length_eq
  have hlen2 : (retrieveRelevantMemories cos query maxCount threshold
      queryEmbedding memories).length
      = min (min maxCount 3) memories.length := by
    rw [h1, List.length_map, List.length_take, hlen]
  have hkey := mergeSort_key_drop_le_take Memory.createdAt memories (min maxCount 3)
  refine ⟨h1, ?_, ?_, ?_, ?_, hkey.2⟩
  · rw [hlen2]
    refine le_min (le_min hmax (by norm_num)) ?_
    exact List.length_pos.mpr hne
  · rw [hlen2]
    exact le_trans (min_le_left _ _) (min_le_right _ _)
  · intro r hr
    rw [h1] at hr
    obtain ⟨m, hm, rfl⟩ := List.mem_map.mp hr
    rfl
  · exact hkey.1.sublist (List.take_sublist _ _)

/-- Older memory of the C9 scenario (created at 100), embedded. -/
def c9M1 : Memory :=
  { id := "m9a"
    content := "older fact"
    source := Source.manual
    createdAt := 100
    updatedAt := 100
    embedding := some [1]
    importance := 60
    accessCount := 0
    lastAccessedAt := 100
    pinned := false }

/-- Newer memory of the C9 scenario (created at 200), embedded. -/
def c9M2 : Memory :=
  { id := "m9b"
    content := "newer fact"
    source := Source.auto
    createdAt := 200
    updatedAt := 200
    embedding := some [1]
    importance := 40
    accessCount := 0
    lastAccessedAt := 200
    pinned := false }

/-- The C9 store, older memory first. -/
def c9Memories : List Memory := [c9M1, c9M2]

/-- A cosine routine that scores every pair 0, so nothing clears the
threshold `1/2`. -/
def c9Cos : List ℚ → List ℚ → ℚ := fun _ _ => 0

/-- Witness for C9: with similarity 0 everywhere and threshold `1/2` the
pipeline finds nothing, and the fallback returns both memories, newest
first, each with similarity `0.5`. -/
theorem retrieve_recency_fallback_witness :
    (c9Memories ≠ [] ∧ 1 ≤ 5 ∧
     retrieveCore c9Cos "query" 5 (1 / 2) (some [1]) c9Memories = []) ∧
    (retrieveRelevantMemories c9Cos "query" 5 (1 / 2) (some [1]) c9Memories
      = ((c9Memories.mergeSort fun a b => decide (b.createdAt ≤ a.createdAt)).take
          (min 5 3)).map (fun m =>
            { id := m.id, content := m.content, similarity := 1 / 2,
              source := m.source }) ∧
     1 ≤ (retrieveRelevantMemories c9Cos "query" 5 (1 / 2) (some [1])
          c9Memories).length ∧
     (retrieveRelevantMemories c9Cos "query" 5 (1 / 2) (some [1])
          c9Memories).length ≤ 3 ∧
     (∀ r ∈ retrieveRelevantMemories c9Cos "query" 5 (1 / 2) (some [1])
          c9Memories, r.similarity = 1 / 2) ∧
     List.Pairwise (fun a b : Memory => b.createdAt ≤ a.createdAt)
       ((c9Memories.mergeSort fun a b => decide (b.createdAt ≤ a.createdAt)).take
         (min 5 3)) ∧
     (∀ x ∈ (c9Memories.mergeSort fun a b =>
         decide (b.createdAt ≤ a.createdAt)).drop (min 5 3),
      ∀ y ∈ (c9Memories.mergeSort fun a b =>
         decide (b.createdAt ≤ a.createdAt)).take (min 5 3),
        x.createdAt ≤ y.createdAt)) ∧
    retrieveRelevantMemories c9Cos "query" 5 (1 / 2) (some [1]) c9Memories
      = [{ id := "m9b", content := "newer fact", similarity := 1 / 2,
           source := Source.auto },
         { id := "m9a", content := "older fact", similarity := 1 / 2,
           source := Source.manual }] :=
  ⟨⟨by decide, by decide,
    by norm_num [retrieveCore, c9Cos, c9Memories, c9M1, c9M2, List.mergeSort]⟩,
   retrieve_recency_fallback c9Cos "query" 5 (1 / 2) (some [1]) c9Memories
     (by decide) (by decide)
     (by norm_num [retrieveCore, c9Cos, c9Memories, c9M1, c9M2, List.mergeSort]),
   by norm_num [retrieveRelevantMemories, retrieveCore, c9Cos, c9Memories,
     c9M1, c9M2, List.mergeSort, List.merge]⟩
